import Mathlib

/-!
Verification of the user CRUD HTTP service (src/index.js) against its
natural-language specification.

The development shallowly embeds the request-handling code:
JSON values arriving in request bodies become the inductive `JSValue`;
the validation middlewares `validateId` and `validateUserInput`, and the
per-field validation inside the PATCH handler, become Lean functions
translated clause by clause from the source; the Prisma-backed user store
becomes explicit state passing over `Db`; each route handler becomes a
function `Db → params → Db × Response`.  The Express middleware layer
semantics relevant to the malformed-JSON claim is embedded as `dispatch`
over a list of `Layer`s.
-/

/-! ## JavaScript value model

Request bodies are produced by `express.json()`, i.e. by `JSON.parse`, so a
body field is `undefined` (absent), `null`, a boolean, a finite number, a
string, or an array/object.  Arrays and objects are collapsed into the
single constructor `objLike`: the validators only observe them through
`typeof` (which answers `"object"` for both), truthiness (both truthy) and
the absence of a `.match` method, and those three observations coincide for
all arrays and objects.  `JSON.parse` never yields `NaN`, `Infinity` or
functions, so numbers are modelled as rationals. -/

inductive JSValue where
  | undef
  | null
  | bool (b : Bool)
  | num (q : Rat)
  | str (s : String)
  | objLike
deriving DecidableEq, Repr

/-- JavaScript `typeof` restricted to the values of `JSValue`. -/
def typeofJS : JSValue → String
  | .undef => "undefined"
  | .null => "object"
  | .bool _ => "boolean"
  | .num _ => "number"
  | .str _ => "string"
  | .objLike => "object"

/-- JavaScript truthiness of a `JSValue` (`Boolean(v)`). -/
def truthy : JSValue → Bool
  | .undef => false
  | .null => false
  | .bool b => b
  | .num q => q != 0
  | .str s => s != ""
  | .objLike => true

/-- The string payload of a `JSValue`; only ever inspected on values already
known to be strings (mirroring clauses guarded by `typeof v === 'string'`
or reached after a truthiness test on a string). -/
def strVal : JSValue → String
  | .str s => s
  | _ => ""

/-- The numeric payload of a `JSValue`; only ever inspected on values already
known to be numbers. -/
def numVal : JSValue → Rat
  | .num q => q
  | _ => 0

/-- JavaScript `Number.isInteger` on the (finite, rational) numbers of the
model. -/
def isIntegerJS (q : Rat) : Bool := q.den == 1

/-! ## String helpers used by the source

`isWsJS` models the whitespace class of JavaScript (`\s` in regexes,
`String.prototype.trim`, and the leading-whitespace skip of `parseInt`),
restricted to its common members. -/

def isWsJS (c : Char) : Bool :=
  c == ' ' || c == '\t' || c == '\n' || c == '\r' ||
    c.toNat == 0xb || c.toNat == 0xc || c.toNat == 0xa0 || c.toNat == 0xfeff

/-- JavaScript `String.prototype.trim`: strip `isWsJS` characters from both
ends. -/
def jsTrim (s : String) : String :=
  String.mk (((s.data.dropWhile isWsJS).reverse.dropWhile isWsJS).reverse)

/-- JavaScript `String.prototype.toLowerCase`, modelled for ASCII letters
(the only case-carrying characters the service's data ever contains). -/
def jsToLower (s : String) : String :=
  String.mk (s.data.map Char.toLower)

/-- Whether a string matches the source's email regular expression
`^[^\s@]+@[^\s@]+\.[^\s@]+$`.

Derivation: every character class of the pattern excludes `@`, and the
pattern is anchored at both ends, so a matching string contains exactly one
`@`; hence `splitOn '@'` must give exactly two parts `l` and `d`.  The
classes also exclude whitespace, so neither part contains an `isWsJS`
character, and `l` is nonempty (`[^\s@]+`).  Finally `d` must match
`[^\s@]+\.[^\s@]+`, i.e. contain a literal dot that is neither its first
nor its last character (the class includes the dot itself, so the dot of
the pattern may be any interior dot of `d`). -/
def emailOk (s : String) : Bool :=
  match s.data.splitOn '@' with
  | [l, d] =>
    !(l.isEmpty) && (l ++ d).all (fun c => !(isWsJS c)) &&
      ((d.drop 1).dropLast.contains '.')
  | _ => false

/-! ## `parseInt`

`parseIntJS` models ECMAScript `parseInt(string)` with the radix argument
omitted: skip leading whitespace, read an optional sign, switch to base 16
when the remainder starts with `0x`/`0X`, then take the longest run of
digits of the radix; no digit at all gives `NaN`, modelled as `none`. -/

def decDigitVal (c : Char) : Option Nat :=
  if '0' ≤ c && c ≤ '9' then some (c.toNat - 48) else none

def hexDigitVal (c : Char) : Option Nat :=
  if '0' ≤ c && c ≤ '9' then some (c.toNat - 48)
  else if 'a' ≤ c && c ≤ 'f' then some (c.toNat - 87)
  else if 'A' ≤ c && c ≤ 'F' then some (c.toNat - 55)
  else none

/-- Accumulate the value of the longest leading digit run, starting from
`acc`. -/
def digitsAux (dv : Char → Option Nat) (base : Nat) (acc : Nat) :
    List Char → Nat
  | [] => acc
  | c :: cs =>
    match dv c with
    | some d => digitsAux dv base (base * acc + d) cs
    | none => acc

/-- Value of the longest leading digit run; `none` when there is no leading
digit (`parseInt` answers `NaN` then). -/
def digitsVal (dv : Char → Option Nat) (base : Nat) : List Char → Option Nat
  | [] => none
  | c :: cs =>
    match dv c with
    | some d => some (digitsAux dv base d cs)
    | none => none

/-- Digit reading of `parseInt` after sign processing: a leading `0x`/`0X`
selects base 16, anything else is read in base 10. -/
def parseRadix (cs : List Char) : Option Nat :=
  match cs with
  | '0' :: c :: r =>
    if c == 'x' || c == 'X' then digitsVal hexDigitVal 16 r
    else digitsVal decDigitVal 10 cs
  | _ => digitsVal decDigitVal 10 cs

/-- `parseInt(s)` of JavaScript; `none` plays the role of `NaN`. -/
def parseIntJS (s : String) : Option Int :=
  match s.data.dropWhile isWsJS with
  | [] => none
  | c :: r =>
    if c == '-' then (parseRadix r).map (fun n => -(n : Int))
    else if c == '+' then (parseRadix r).map (fun n => (n : Int))
    else (parseRadix (c :: r)).map (fun n => (n : Int))

/-! ## Responses -/

/-- A persisted user row.  `age` is the nullable integer column; `none` is
the database `NULL` ("not set"). -/
structure User where
  id : Int
  name : String
  email : String
  age : Option Int
deriving DecidableEq, Repr

/-- The JSON bodies the service can answer with.  `internalErr` stands for
the catch-all body `{error: "Something went wrong!", message: <detail>}`
whose `message` text is runtime-dependent. -/
inductive RBody where
  | errObj (msg : String)
  | internalErr
  | userObj (u : User)
  | userList (us : List User)
  | deletedObj (message : String) (u : User)
deriving DecidableEq, Repr

structure Response where
  status : Nat
  body : RBody
deriving DecidableEq, Repr

/-! ## The `validateId` middleware

Source:
  const id = parseInt(req.params.id);
  if (isNaN(id) || id < 1) return res.status(400).json(...);
  req.params.id = id;
`Except.error` carries the early 400 response, `Except.ok` the normalized
integer handed to the route handler. -/

def validateId (s : String) : Except Response Int :=
  match parseIntJS s with
  | none => .error ⟨400, .errObj "Invalid ID parameter"⟩
  | some id =>
    if id < 1 then .error ⟨400, .errObj "Invalid ID parameter"⟩
    else .ok id

/-! ## The request-body validators

`Body` is the destructuring `const { name, email, age } = req.body` of the
handlers: the three recognized fields of the incoming JSON object, each a
`JSValue` (`undef` when absent).  `VResult` is the observable outcome of a
validator: an early `res.status(400).json({error: msg})`, an uncaught
`TypeError` (calling `.match` on a truthy non-string), or success. -/

structure Body where
  name : JSValue
  email : JSValue
  age : JSValue
deriving DecidableEq, Repr

inductive VResult (α : Type) where
  | err400 (msg : String)
  | thrown
  | ok (a : α)
deriving DecidableEq, Repr

/-- The check `!name || typeof name !== 'string' || name.trim().length === 0`
of `validateUserInput` (true means invalid). -/
def nameBad (v : JSValue) : Bool :=
  !(truthy v) || typeofJS v != "string" || (jsTrim (strVal v)).length == 0

/-- The check
`age !== undefined && (typeof age !== 'number' || age < 0 || !Number.isInteger(age))`
shared verbatim by `validateUserInput` and the PATCH handler (true means
invalid). -/
def ageBad (v : JSValue) : Bool :=
  v != JSValue.undef &&
    (typeofJS v != "number" || decide (numVal v < 0) || !(isIntegerJS (numVal v)))

/-- The `validateUserInput` middleware (used by POST and PUT).  The
`email` clause `!email || !email.match(re)` first tests truthiness; the
`.match` call then throws a `TypeError` whenever `email` is a truthy
non-string.  On success the middleware rewrites `req.body.name` to
`name.trim()` and `req.body.email` to `email.toLowerCase().trim()` and the
handler reads the rewritten body. -/
def validateUserInput (b : Body) : VResult Body :=
  if nameBad b.name then .err400 "Valid name is required"
  else if !(truthy b.email) then .err400 "Valid email is required"
  else
    match b.email with
    | .str es =>
      if !(emailOk es) then .err400 "Valid email is required"
      else if ageBad b.age then .err400 "Age must be a positive integer"
      else .ok { name := .str (jsTrim (strVal b.name)),
                 email := .str (jsTrim (jsToLower es)),
                 age := b.age }
    | _ => .thrown

/-! ## The user store

The service persists users through a Prisma client over a relational
database.  The Prisma schema is not part of the sources, so the columns and
constraints are taken from the spec; the claim results that depend on them
say so.

Modelled from the spec: the store state.  `users` are the persisted rows
(in internal row order — every read that reaches a client is explicitly
sorted), `nextId` the auto-increment counter backing `id` assignment
("positive integer, unique, assigned by the store on creation, never
reused"). -/
structure Db where
  users : List User
  nextId : Int
deriving DecidableEq, Repr

/-- The closed set of Prisma client error codes the handlers inspect:
`P2025` (record not found) and `P2002` (unique-constraint violation). -/
inductive PErr where
  | p2025
  | p2002
deriving DecidableEq, Repr

/-- Update payload handed to `prisma.user.update`: a `none` field is
JavaScript `undefined`, which the Prisma client treats as "leave this
column unchanged". -/
structure UpdateData where
  name : Option String
  email : Option String
  age : Option Int
deriving DecidableEq, Repr

/-- The `age` value handed to a Prisma write after `validateUserInput`:
`undefined` stays `undefined` (`none`), a validated number is the integer
it denotes. -/
def jsAgeOpt : JSValue → Option Int
  | .num q => some q.num
  | _ => none

/-- Modelled from the spec: `prisma.user.findMany({orderBy: {id: 'asc'}})`
— all rows sorted ascending by `id`. -/
def findManyAsc (db : Db) : List User :=
  db.users.insertionSort (fun a b => a.id ≤ b.id)

/-- Modelled from the spec: `prisma.user.findUnique...` row lookup by the
primary key `id`. -/
def dbFind (db : Db) (id : Int) : Option User :=
  db.users.find? (fun v => v.id == id)

/-- Modelled from the spec: `prisma.user.create({data: {name, email, age}})`
with the unique constraint on `email` ("unique across all users"): a row
with the same stored email makes the insert fail with `P2002`; otherwise
the store assigns `id := nextId` and appends the row. -/
def dbCreate (db : Db) (name email : String) (age : Option Int) :
    Except PErr (Db × User) :=
  if db.users.any (fun v => v.email == email) then .error .p2002
  else
    let u : User := ⟨db.nextId, name, email, age⟩
    .ok (⟨db.users ++ [u], db.nextId + 1⟩, u)

/-- Modelled from the spec: `prisma.user.update({where: {id}, data})`.
A missing row fails with `P2025`.  A defined (`some`) field overwrites the
column, an `undefined` (`none`) field leaves it unchanged.  Writing an
`email` equal to a different row's stored email violates the unique
constraint (`P2002`). -/
def dbUpdate (db : Db) (id : Int) (d : UpdateData) :
    Except PErr (Db × User) :=
  match dbFind db id with
  | none => .error .p2025
  | some u =>
    let u2 : User :=
      { id := u.id,
        name := d.name.getD u.name,
        email := d.email.getD u.email,
        age := match d.age with | none => u.age | some a => some a }
    let conflict : Bool :=
      match d.email with
      | some e => db.users.any (fun v => v.id != id && v.email == e)
      | none => false
    if conflict then .error .p2002
    else .ok (⟨db.users.map (fun v => if v.id == id then u2 else v),
               db.nextId⟩, u2)

/-- Modelled from the spec: `prisma.user.delete({where: {id}})` — remove
the row with primary key `id` and return its last state, or fail with
`P2025`.  Primary-key uniqueness makes removal by filtering equal to
removing the one found row. -/
def dbDelete (db : Db) (id : Int) : Except PErr (Db × User) :=
  match dbFind db id with
  | none => .error .p2025
  | some u => .ok (⟨db.users.filter (fun v => v.id != id), db.nextId⟩, u)

/-! ## Route handlers

Each handler takes the store state and the request data already past the
preceding middlewares, and returns the new store state with the HTTP
response.  The `catch` blocks of the source map `P2025` to 404, `P2002`
(where inspected) to 409, and everything else to `next(error)`, i.e. the
500 of `errorHandler`. -/

/-- Handler of `GET /users`. -/
def getUsers (db : Db) : Db × Response :=
  (db, ⟨200, .userList (findManyAsc db)⟩)

/-- Handler of `GET /users/:id` (after `validateId`). -/
def getUserById (db : Db) (id : Int) : Db × Response :=
  match dbFind db id with
  | none => (db, ⟨404, .errObj "User not found"⟩)
  | some u => (db, ⟨200, .userObj u⟩)

/-- Handler of `POST /users` (after `validateUserInput`), including that
middleware: create the user from the normalized body. -/
def postUsers (db : Db) (b : Body) : Db × Response :=
  match validateUserInput b with
  | .err400 m => (db, ⟨400, .errObj m⟩)
  | .thrown => (db, ⟨500, .internalErr⟩)
  | .ok nb =>
    match dbCreate db (strVal nb.name) (strVal nb.email) (jsAgeOpt nb.age) with
    | .error .p2002 => (db, ⟨409, .errObj "Email already exists"⟩)
    | .error .p2025 => (db, ⟨500, .internalErr⟩)
    | .ok (db2, u) => (db2, ⟨201, .userObj u⟩)

/-- Handler of `PUT /users/:id` (after `validateId`), including
`validateUserInput`: full update from the normalized body.  Note that the
source passes `age` through even when it is `undefined`. -/
def putUsers (db : Db) (id : Int) (b : Body) : Db × Response :=
  match validateUserInput b with
  | .err400 m => (db, ⟨400, .errObj m⟩)
  | .thrown => (db, ⟨500, .internalErr⟩)
  | .ok nb =>
    match dbUpdate db id ⟨some (strVal nb.name), some (strVal nb.email),
                          jsAgeOpt nb.age⟩ with
    | .error .p2025 => (db, ⟨404, .errObj "User not found"⟩)
    | .error .p2002 => (db, ⟨409, .errObj "Email already exists"⟩)
    | .ok (db2, u) => (db2, ⟨200, .userObj u⟩)

/-! ### The PATCH handler's per-field validation

Direct translations of the three `if (field !== undefined) { ... }` blocks;
`ok none` means "field absent, leave `updateData` alone", `ok (some x)`
means "field accepted as `x`". -/

/-- PATCH name block: `typeof name !== 'string' || name.trim().length === 0`
rejects, otherwise `updateData.name = name.trim()`. -/
def patchNameField (v : JSValue) : VResult (Option String) :=
  if v == JSValue.undef then .ok none
  else if typeofJS v != "string" || (jsTrim (strVal v)).length == 0 then
    .err400 "Valid name is required"
  else .ok (some (jsTrim (strVal v)))

/-- PATCH email block: `!email || !email.match(re)` rejects (throwing on a
truthy non-string), otherwise `updateData.email = email.toLowerCase().trim()`. -/
def patchEmailField (v : JSValue) : VResult (Option String) :=
  if v == JSValue.undef then .ok none
  else if !(truthy v) then .err400 "Valid email is required"
  else
    match v with
    | .str es =>
      if !(emailOk es) then .err400 "Valid email is required"
      else .ok (some (jsTrim (jsToLower es)))
    | _ => .thrown

/-- PATCH age block: the same check as `validateUserInput`, otherwise
`updateData.age = age`. -/
def patchAgeField (v : JSValue) : VResult (Option Int) :=
  if v == JSValue.undef then .ok none
  else if typeofJS v != "number" || decide (numVal v < 0) ||
      !(isIntegerJS (numVal v)) then
    .err400 "Age must be a positive integer"
  else .ok (some (numVal v).num)

/-- Handler of `PATCH /users/:id` (after `validateId`): build `updateData`
field by field, reject when `Object.keys(updateData).length === 0`, then
`prisma.user.update`. -/
def patchUsers (db : Db) (id : Int) (b : Body) : Db × Response :=
  match patchNameField b.name with
  | .err400 m => (db, ⟨400, .errObj m⟩)
  | .thrown => (db, ⟨500, .internalErr⟩)
  | .ok nOpt =>
    match patchEmailField b.email with
    | .err400 m => (db, ⟨400, .errObj m⟩)
    | .thrown => (db, ⟨500, .internalErr⟩)
    | .ok eOpt =>
      match patchAgeField b.age with
      | .err400 m => (db, ⟨400, .errObj m⟩)
      | .thrown => (db, ⟨500, .internalErr⟩)
      | .ok aOpt =>
        if nOpt.isNone && eOpt.isNone && aOpt.isNone then
          (db, ⟨400, .errObj "No valid update data provided"⟩)
        else
          match dbUpdate db id ⟨nOpt, eOpt, aOpt⟩ with
          | .error .p2025 => (db, ⟨404, .errObj "User not found"⟩)
          | .error .p2002 => (db, ⟨409, .errObj "Email already exists"⟩)
          | .ok (db2, u) => (db2, ⟨200, .userObj u⟩)

/-- Handler of `DELETE /users/:id` (after `validateId`). -/
def deleteUsers (db : Db) (id : Int) : Db × Response :=
  match dbDelete db id with
  | .error .p2025 => (db, ⟨404, .errObj "User not found"⟩)
  | .error .p2002 => (db, ⟨500, .internalErr⟩)
  | .ok (db2, u) =>
    (db2, ⟨200, .deletedObj ("User " ++ u.name ++ " deleted successfully") u⟩)

/-- The `PATCH /users/:id` route: `validateId` then the handler. -/
def patchRoute (db : Db) (idParam : String) (b : Body) : Db × Response :=
  match validateId idParam with
  | .error r => (db, r)
  | .ok id => patchUsers db id b

/-! ## Express middleware dispatch (for the malformed-JSON claim)

Express keeps the `app.use`/route layers in registration order.  A layer
whose function takes four arguments is an error handler.  Dispatch walks
the list: with no error pending it runs the next plain layer (skipping
error handlers); once some layer passes an error to `next`, dispatch skips
plain layers and hands the error to the next error handler *after* that
point — layers already passed are never revisited.  An error handler may
respond, resume the normal flow with `next()`, or forward with
`next(err)`. -/

/-- The errors that travel down the middleware chain for the claim at hand:
the `SyntaxError` with `status === 400` and a `body` property thrown by
`express.json()` on a malformed body, or anything else. -/
inductive MWErr where
  | badJson
  | otherErr
deriving DecidableEq, Repr

/-- What a layer invocation does: answer the request, `next()`, or
`next(err)`. -/
inductive LOut where
  | respond (r : Response)
  | nextOk
  | nextErr (e : MWErr)
deriving Repr

/-- The request data the middleware chain of the claim observes: whether
`express.json()` fails to parse the body. -/
structure HReq where
  malformedJson : Bool
deriving DecidableEq, Repr

structure Layer where
  isErrorHandler : Bool
  onNormal : HReq → LOut
  onError : MWErr → HReq → LOut

/-- Express layer dispatch over the registered stack.  `none` as the
pending-error argument is the normal flow. -/
def dispatch : List Layer → Option MWErr → HReq → Option Response
  | [], _, _ => none
  | l :: ls, none, req =>
    if l.isErrorHandler then dispatch ls none req
    else
      match l.onNormal req with
      | .respond r => some r
      | .nextOk => dispatch ls none req
      | .nextErr e => dispatch ls (some e) req
  | l :: ls, some e, req =>
    if l.isErrorHandler then
      match l.onError e req with
      | .respond r => some r
      | .nextOk => dispatch ls none req
      | .nextErr e2 => dispatch ls (some e2) req
    else dispatch ls (some e) req

/-- `app.use(cors())`: passes every request through. -/
def corsLayer : Layer := ⟨false, fun _ => .nextOk, fun e _ => .nextErr e⟩

/-- The request-logging middleware: logs and calls `next()`. -/
def loggerLayer : Layer := ⟨false, fun _ => .nextOk, fun e _ => .nextErr e⟩

/-- The four-argument middleware of lines 19-24: on a `SyntaxError` with
`status === 400` and a `body` property it answers
`400 {error: "Invalid JSON"}`, otherwise it forwards with `next(err)`. -/
def jsonErrorLayer : Layer :=
  ⟨true, fun _ => .nextOk,
   fun e _ =>
     match e with
     | .badJson => .respond ⟨400, .errObj "Invalid JSON"⟩
     | .otherErr => .nextErr .otherErr⟩

/-- `app.use(express.json())`: passes the error of a malformed body to
`next`, otherwise continues. -/
def expressJsonLayer : Layer :=
  ⟨false,
   fun req => if req.malformedJson then .nextErr .badJson else .nextOk,
   fun e _ => .nextErr e⟩

/-- The final `errorHandler` of lines 39-45: always
`500 {error: "Something went wrong!", message: err.message}`. -/
def errorHandlerLayer : Layer :=
  ⟨true, fun _ => .nextOk, fun _ _ => .respond ⟨500, .internalErr⟩⟩

/-- The application's middleware stack in registration order, with the
route handlers and the 404 catch-all abstracted as an arbitrary list of
plain (non-error-handling) layers between `express.json()` and
`errorHandler`. -/
def appStack (routes : List Layer) : List Layer :=
  [corsLayer, loggerLayer, jsonErrorLayer, expressJsonLayer] ++ routes ++
    [errorHandlerLayer]

/-! ## Shared lemmas -/

/-- Inversion of a successful `validateUserInput`: the normalized body is
the input with `name` trimmed and `email` lower-cased and trimmed, `age`
untouched. -/
theorem validateUserInput_ok_shape (b nb : Body)
    (h : validateUserInput b = .ok nb) :
    nb = ⟨.str (jsTrim (strVal b.name)), .str (jsTrim (jsToLower (strVal b.email))), b.age⟩ := by
  unfold validateUserInput at h
  by_cases h1 : nameBad b.name = true
  · simp [h1] at h
  · simp [h1] at h
    by_cases h2 : truthy b.email = true
    · simp [h2] at h
      cases hbe : b.email <;> rw [hbe] at h <;> try simp at h
      rename_i es
      by_cases h3 : emailOk es = true
      · simp [h3] at h
        by_cases h4 : ageBad b.age = true
        · simp [h4] at h
        · simp [h4] at h
          rw [← h]
          simp [hbe, strVal]
      · simp [h3] at h
    · simp [h2] at h

/-! ## Claim C2 — email normalization -/

/-- C2 counterexample: the input `" A@B.COM "` is not accepted — the email
pattern `^[^\s@]+@[^\s@]+\.[^\s@]+$` admits no whitespace anywhere, so the
create/update is rejected with 400 `Valid email is required` instead of
storing `"a@b.com"`. -/
theorem email_whitespace_rejected_cex :
    validateUserInput ⟨.str "A", .str " A@B.COM ", .undef⟩ =
      .err400 "Valid email is required" := by rfl

/-- C2 (amended): for every create/update input that passes validation, the
stored email is the input email lower-cased and trimmed (the trim being
vacuous, as validated emails contain no whitespace). -/
theorem stored_email_normalized (b nb : Body)
    (h : validateUserInput b = .ok nb) :
    nb.email = .str (jsTrim (jsToLower (strVal b.email))) := by
  rw [validateUserInput_ok_shape b nb h]

/-- C2 witness: a concrete accepted input with mixed casing. -/
theorem stored_email_normalized_witness :
    (Body.mk (.str "Bob") (.str "a@b.com") .undef).email =
      .str (jsTrim (jsToLower
        (strVal (Body.mk (.str "Bob") (.str "A@B.com") .undef).email))) :=
  stored_email_normalized ⟨.str "Bob", .str "A@B.com", .undef⟩
    ⟨.str "Bob", .str "a@b.com", .undef⟩ (by rfl)

/-! ## Claim C3 — PUT and the absent `age` -/

/-- C3 counterexample: a full update of the user `{id 1, age 30}` whose body
has no `age` leaves the stored age at `some 30` — `undefined` reaches
`prisma.user.update`, which skips the column — whereas the claim says the
age afterwards is "not set" (`none`). -/
theorem put_age_not_cleared_cex :
    ((putUsers ⟨[⟨1, "X", "x@y.com", some 30⟩], 2⟩ 1
        ⟨.str "Y", .str "y@z.com", .undef⟩).1.users.map User.age) = [some 30] ∧
    (some 30 : Option Int) ≠ none := ⟨by rfl, by simp⟩

/-- C3 (amended): a valid PUT on an existing user overwrites `name` and
`email` and overwrites `age` when the body supplies it, but when `age` is
absent from the body the stored age keeps its previous value. -/
theorem put_overwrites_but_keeps_absent_age (db : Db) (id : Int)
    (b nb : Body) (u : User)
    (h1 : validateUserInput b = .ok nb)
    (h2 : dbFind db id = some u)
    (h3 : db.users.any (fun v => v.id != id && v.email == strVal nb.email) = false) :
    ∃ u2 : User,
      putUsers db id b =
        (⟨db.users.map (fun v => if v.id == id then u2 else v), db.nextId⟩,
         ⟨200, .userObj u2⟩) ∧
      u2.id = u.id ∧ u2.name = strVal nb.name ∧ u2.email = strVal nb.email ∧
      (b.age = .undef → u2.age = u.age) ∧
      (∀ q : Rat, b.age = .num q → u2.age = some q.num) := by
  have hshape := validateUserInput_ok_shape b nb h1
  have hage : nb.age = b.age := by rw [hshape]
  refine ⟨⟨u.id, strVal nb.name, strVal nb.email,
          match jsAgeOpt nb.age with | none => u.age | some a => some a⟩,
         ?_, rfl, rfl, rfl, ?_, ?_⟩
  · unfold putUsers
    rw [h1]
    unfold dbUpdate dbFind
    rw [show db.users.find? (fun v => v.id == id) = some u from h2]
    simp [h3]
  · intro ha
    rw [hage, ha]
    simp [jsAgeOpt]
  · intro q hq
    rw [hage, hq]
    simp [jsAgeOpt]

/-- C3 witness: the concrete scenario of the counterexample satisfies the
amended statement. -/
theorem put_overwrites_but_keeps_absent_age_witness :
    ∃ u2 : User,
      putUsers ⟨[⟨1, "X", "x@y.com", some 30⟩], 2⟩ 1
          ⟨.str "Y", .str "y@z.com", .undef⟩ =
        (⟨[⟨(1 : Int), "X", "x@y.com", some 30⟩].map
            (fun v => if v.id == (1 : Int) then u2 else v), 2⟩,
         ⟨200, .userObj u2⟩) ∧
      u2.id = (1 : Int) ∧ u2.name = "Y" ∧ u2.email = "y@z.com" ∧
      ((JSValue.undef : JSValue) = .undef → u2.age = some 30) ∧
      (∀ q : Rat, (JSValue.undef : JSValue) = .num q → u2.age = some q.num) :=
  put_overwrites_but_keeps_absent_age ⟨[⟨1, "X", "x@y.com", some 30⟩], 2⟩ 1
    ⟨.str "Y", .str "y@z.com", .undef⟩ ⟨.str "Y", .str "y@z.com", .undef⟩
    ⟨1, "X", "x@y.com", some 30⟩ (by rfl) (by rfl) (by rfl)

/-! ## Claim C6 — empty PATCH -/

/-- C6: a PATCH whose id passes validation and whose body supplies none of
`name`, `email`, `age` answers 400 `No valid update data provided` and
leaves the store untouched. -/
theorem patch_no_fields_400 (db : Db) (idp : String) (i : Int) (b : Body)
    (hid : validateId idp = .ok i)
    (hn : b.name = .undef) (he : b.email = .undef) (ha : b.age = .undef) :
    patchRoute db idp b = (db, ⟨400, .errObj "No valid update data provided"⟩) := by
  unfold patchRoute
  rw [hid]
  unfold patchUsers
  rw [hn, he, ha]
  rfl

/-- C6 witness: `PATCH /users/1` with body `{}`. -/
theorem patch_no_fields_400_witness :
    patchRoute ⟨[], 1⟩ "1" ⟨.undef, .undef, .undef⟩ =
      (⟨[], 1⟩, ⟨400, .errObj "No valid update data provided"⟩) :=
  patch_no_fields_400 ⟨[], 1⟩ "1" 1 ⟨.undef, .undef, .undef⟩ (by rfl) rfl rfl rfl

/-! ## Claim C8 — listing is sorted -/

instance : IsTotal User (fun a b => a.id ≤ b.id) :=
  ⟨fun a b => Int.le_total a.id b.id⟩

instance : IsTrans User (fun a b => a.id ≤ b.id) :=
  ⟨fun _ _ _ h1 h2 => le_trans h1 h2⟩

/-- C8: on every store state, `GET /users` answers 200 with exactly the
persisted users, sorted ascending by `id`, and does not change the store. -/
theorem getUsers_sorted_by_id (db : Db) :
    (getUsers db).1 = db ∧ (getUsers db).2.status = 200 ∧
    ∃ l : List User, (getUsers db).2.body = .userList l ∧
      l.Perm db.users ∧ List.Sorted (fun a b : User => a.id ≤ b.id) l :=
  ⟨rfl, rfl, findManyAsc db, rfl, List.perm_insertionSort _ _,
    List.sorted_insertionSort _ _⟩

/-! ## Claim C9 — DELETE then DELETE again -/

/-- C9: deleting an existing user removes exactly its row and answers 200
with the deleted record; repeating the same DELETE answers 404
`User not found` and changes nothing. -/
theorem delete_then_redelete (db : Db) (id : Int) (u : User)
    (h : dbFind db id = some u) :
    deleteUsers db id =
      (⟨db.users.filter (fun v => v.id != id), db.nextId⟩,
       ⟨200, .deletedObj ("User " ++ u.name ++ " deleted successfully") u⟩) ∧
    deleteUsers ⟨db.users.filter (fun v => v.id != id), db.nextId⟩ id =
      (⟨db.users.filter (fun v => v.id != id), db.nextId⟩,
       ⟨404, .errObj "User not found"⟩) := by
  constructor
  · unfold deleteUsers dbDelete
    rw [h]
  · have hnone : dbFind ⟨db.users.filter (fun v => v.id != id), db.nextId⟩ id = none := by
      unfold dbFind
      rw [List.find?_eq_none]
      intro x hx
      simp only [List.mem_filter] at hx
      simpa using hx.2
    unfold deleteUsers dbDelete
    rw [hnone]

/-- C9 witness: delete user 1 twice on a one-user store. -/
theorem delete_then_redelete_witness :
    deleteUsers ⟨[⟨1, "X", "x@y.com", none⟩], 2⟩ 1 =
      (⟨[(⟨1, "X", "x@y.com", none⟩ : User)].filter (fun v => v.id != (1 : Int)), 2⟩,
       ⟨200, .deletedObj ("User " ++ "X" ++ " deleted successfully")
         ⟨1, "X", "x@y.com", none⟩⟩) ∧
    deleteUsers ⟨[(⟨1, "X", "x@y.com", none⟩ : User)].filter (fun v => v.id != (1 : Int)), 2⟩ 1 =
      (⟨[(⟨1, "X", "x@y.com", none⟩ : User)].filter (fun v => v.id != (1 : Int)), 2⟩,
       ⟨404, .errObj "User not found"⟩) :=
  delete_then_redelete ⟨[⟨1, "X", "x@y.com", none⟩], 2⟩ 1
    ⟨1, "X", "x@y.com", none⟩ (by rfl)

/-! ## Claim C7 — duplicate email on create -/

/-- C7: when two create requests carry the same normalized email and the
first one succeeds (201), the second answers 409 `Email already exists`
and leaves the store exactly as the first create left it. -/
theorem duplicate_email_second_create_409 (db : Db) (b1 b2 nb1 nb2 : Body)
    (h1 : validateUserInput b1 = .ok nb1)
    (h2 : validateUserInput b2 = .ok nb2)
    (he : strVal nb1.email = strVal nb2.email)
    (hs : (postUsers db b1).2.status = 201) :
    postUsers (postUsers db b1).1 b2 =
      ((postUsers db b1).1, ⟨409, .errObj "Email already exists"⟩) := by
  have hc : (db.users.any fun v => v.email == strVal nb1.email) = false := by
    by_contra hcc
    have hc2 : (db.users.any fun v => v.email == strVal nb1.email) = true := by
      simpa using hcc
    unfold postUsers dbCreate at hs
    rw [h1] at hs
    simp [hc2] at hs
  have hfirst : postUsers db b1 =
      (⟨db.users ++ [⟨db.nextId, strVal nb1.name, strVal nb1.email, jsAgeOpt nb1.age⟩],
        db.nextId + 1⟩,
       ⟨201, .userObj ⟨db.nextId, strVal nb1.name, strVal nb1.email, jsAgeOpt nb1.age⟩⟩) := by
    unfold postUsers dbCreate
    rw [h1]
    simp [hc]
  rw [hfirst]
  unfold postUsers dbCreate
  rw [h2]
  simp [List.any_append, ← he]

/-- C7 witness: two creates with emails normalizing to `a@b.com` on the
empty store. -/
theorem duplicate_email_second_create_409_witness :
    postUsers (postUsers ⟨[], 1⟩ ⟨.str "A", .str "a@b.com", .undef⟩).1
        ⟨.str "B", .str "A@B.com", .num 3⟩ =
      ((postUsers ⟨[], 1⟩ ⟨.str "A", .str "a@b.com", .undef⟩).1,
       ⟨409, .errObj "Email already exists"⟩) :=
  duplicate_email_second_create_409 ⟨[], 1⟩
    ⟨.str "A", .str "a@b.com", .undef⟩ ⟨.str "B", .str "A@B.com", .num 3⟩
    ⟨.str "A", .str "a@b.com", .undef⟩ ⟨.str "B", .str "a@b.com", .num 3⟩
    (by rfl) (by rfl) (by rfl) (by rfl)

/-! ## Claim C4 — id validation -/

/-- C4: an id-taking route answers 400 `Invalid ID parameter` unless
`parseInt` turns the path segment into an integer ≥ 1, in which case the
handler receives that integer; `"0"`, `"-5"` and `"abc"` are rejected. -/
theorem validateId_accepts_iff_parseInt_ge_one :
    (∀ (s : String) (n : Int), parseIntJS s = some n → 1 ≤ n →
        validateId s = .ok n) ∧
    (∀ s : String, parseIntJS s = none →
        validateId s = .error ⟨400, .errObj "Invalid ID parameter"⟩) ∧
    (∀ (s : String) (n : Int), parseIntJS s = some n → n < 1 →
        validateId s = .error ⟨400, .errObj "Invalid ID parameter"⟩) ∧
    validateId "0" = .error ⟨400, .errObj "Invalid ID parameter"⟩ ∧
    validateId "-5" = .error ⟨400, .errObj "Invalid ID parameter"⟩ ∧
    validateId "abc" = .error ⟨400, .errObj "Invalid ID parameter"⟩ := by
  refine ⟨?_, ?_, ?_, by rfl, by rfl, by rfl⟩
  · intro s n hp hge
    simp [validateId, hp, not_lt.mpr hge]
  · intro s hp
    simp [validateId, hp]
  · intro s n hp hlt
    simp [validateId, hp, hlt]

/-- C4 witness: `"7"` parses to 7 ≥ 1 and is accepted as id 7. -/
theorem validateId_accepts_iff_parseInt_ge_one_witness :
    validateId "7" = .ok 7 :=
  validateId_accepts_iff_parseInt_ge_one.1 "7" 7 (by rfl) (by decide)

/-! ## Claim C1 — malformed JSON reaches the 500 catch-all -/

/-- While an error is pending, dispatch skips every plain layer, so the
error of `express.json()` reaches only `errorHandler` at the end of the
stack — never the four-argument middleware registered earlier. -/
theorem dispatch_error_past_plain (ls : List Layer) (e : MWErr) (req : HReq)
    (h : ∀ l ∈ ls, l.isErrorHandler = false) :
    dispatch (ls ++ [errorHandlerLayer]) (some e) req =
      some ⟨500, .internalErr⟩ := by
  induction ls with
  | nil => rfl
  | cons l t ih =>
    have hl : l.isErrorHandler = false := h l (List.mem_cons_self l t)
    rw [List.cons_append]
    unfold dispatch
    rw [hl]
    simp only [Bool.false_eq_true, if_false]
    exact ih (fun x hx => h x (List.mem_cons_of_mem l hx))

/-- C1 (code behavior at the failing input): a request with a malformed
JSON body is answered by the final `errorHandler` with
500 `{error: "Something went wrong!", ...}` — not with
400 `{error: "Invalid JSON"}` — for any route layers in between, because
the JSON-error middleware sits before `express.json()` and is never
reached by the error. -/
theorem malformed_json_answered_by_catchall (req : HReq) (routes : List Layer)
    (hm : req.malformedJson = true)
    (hr : ∀ l ∈ routes, l.isErrorHandler = false) :
    dispatch (appStack routes) none req = some ⟨500, .internalErr⟩ ∧
    (⟨500, .internalErr⟩ : Response) ≠ ⟨400, .errObj "Invalid JSON"⟩ := by
  refine ⟨?_, by simp⟩
  have hstep :
      dispatch (expressJsonLayer :: (routes ++ [errorHandlerLayer])) none req =
        dispatch (routes ++ [errorHandlerLayer]) (some .badJson) req := by
    conv_lhs => unfold dispatch
    simp [expressJsonLayer, hm]
  calc dispatch (appStack routes) none req
      = dispatch (expressJsonLayer :: (routes ++ [errorHandlerLayer])) none req := by rfl
    _ = dispatch (routes ++ [errorHandlerLayer]) (some .badJson) req := hstep
    _ = some ⟨500, .internalErr⟩ := dispatch_error_past_plain routes .badJson req hr

/-- C1 witness: the bare stack with no route layers, on a malformed-JSON
request. -/
theorem malformed_json_answered_by_catchall_witness :
    dispatch (appStack []) none ⟨true⟩ = some ⟨500, .internalErr⟩ ∧
    (⟨500, .internalErr⟩ : Response) ≠ ⟨400, .errObj "Invalid JSON"⟩ :=
  malformed_json_answered_by_catchall ⟨true⟩ [] rfl (by simp)

/-! ## Claim C5 — PATCH per-field validation vs the full validator

The PATCH handler re-implements the three field checks instead of calling
`validateUserInput`.  To compare the two, the full validator is probed with
a body whose other fields are fixed valid values (`name "A"`,
`email "a@b.com"`, `age` absent), so that its outcome on the probe is
exactly its verdict on the field under test.  `vmapName`/`vmapEmail`/
`vmapAge` project the probe outcome onto that field's accepted value. -/

def vmapName : VResult Body → VResult (Option String)
  | .err400 m => .err400 m
  | .thrown => .thrown
  | .ok nb => .ok (some (strVal nb.name))

def vmapEmail : VResult Body → VResult (Option String)
  | .err400 m => .err400 m
  | .thrown => .thrown
  | .ok nb => .ok (some (strVal nb.email))

def vmapAge : VResult Body → VResult (Option Int)
  | .err400 m => .err400 m
  | .thrown => .thrown
  | .ok nb => .ok (jsAgeOpt nb.age)

theorem jsTrim_empty : jsTrim "" = "" := rfl

theorem jsTrim_A_len : (jsTrim "A").length = 1 := rfl

theorem emailOk_ab : emailOk "a@b.com" = true := rfl

theorem ageBad_undef : ageBad JSValue.undef = false := rfl

/-- C5: for every supplied field value, the PATCH per-field validation
accepts, rejects (with the same message) or throws exactly as the
full-input validator does on that field, and normalizes to the same stored
value. -/
theorem patch_fields_match_full_validation (v : JSValue)
    (hv : v ≠ JSValue.undef) :
    patchNameField v = vmapName (validateUserInput ⟨v, .str "a@b.com", .undef⟩) ∧
    patchEmailField v = vmapEmail (validateUserInput ⟨.str "A", v, .undef⟩) ∧
    patchAgeField v = vmapAge (validateUserInput ⟨.str "A", .str "a@b.com", v⟩) := by
  refine ⟨?_, ?_, ?_⟩
  · cases v with
    | undef => exact absurd rfl hv
    | null => rfl
    | objLike =>
      simp [patchNameField, vmapName, validateUserInput, nameBad, typeofJS, truthy]
    | bool b =>
      cases b <;>
        simp [patchNameField, vmapName, validateUserInput, nameBad, typeofJS, truthy]
    | num q =>
      simp [patchNameField, vmapName, validateUserInput, nameBad, typeofJS, truthy]
    | str s =>
      by_cases hlen : (jsTrim s).length = 0
      · simp [patchNameField, vmapName, validateUserInput, nameBad, typeofJS,
              truthy, strVal, hlen, jsTrim_A_len, emailOk_ab]
      · by_cases hse : s = ""
        · exfalso
          rw [hse, jsTrim_empty] at hlen
          exact hlen rfl
        · simp [patchNameField, vmapName, validateUserInput, nameBad, typeofJS,
                truthy, strVal, hlen, hse, jsTrim_A_len, emailOk_ab, ageBad_undef]
  · cases v with
    | undef => exact absurd rfl hv
    | null => rfl
    | objLike => rfl
    | bool b => cases b <;> rfl
    | num q =>
      by_cases hq : q = 0
      · subst hq
        simp [patchEmailField, vmapEmail, validateUserInput, nameBad, typeofJS,
              truthy, strVal, jsTrim_A_len]
      · simp [patchEmailField, vmapEmail, validateUserInput, nameBad, typeofJS,
              truthy, strVal, hq, jsTrim_A_len]
    | str s =>
      by_cases hse : s = ""
      · subst hse
        rfl
      · by_cases hem : emailOk s = true
        · simp [patchEmailField, vmapEmail, validateUserInput, nameBad, typeofJS,
                truthy, strVal, hse, hem, ageBad_undef, jsTrim_A_len]
        · simp [patchEmailField, vmapEmail, validateUserInput, nameBad, typeofJS,
                truthy, strVal, hse, hem, jsTrim_A_len]
  · cases v with
    | undef => exact absurd rfl hv
    | null => rfl
    | objLike => rfl
    | bool b => cases b <;> rfl
    | str s => rfl
    | num q =>
      by_cases hq1 : q < 0
      · simp [patchAgeField, vmapAge, validateUserInput, nameBad, typeofJS,
              truthy, strVal, ageBad, numVal, hq1, jsTrim_A_len, emailOk_ab]
      · by_cases hq2 : isIntegerJS q = true
        · simp [patchAgeField, vmapAge, validateUserInput, nameBad, typeofJS,
                truthy, strVal, ageBad, numVal, jsAgeOpt, hq1, hq2, jsTrim_A_len,
                emailOk_ab]
        · simp [patchAgeField, vmapAge, validateUserInput, nameBad, typeofJS,
                truthy, strVal, ageBad, numVal, hq1, hq2, jsTrim_A_len, emailOk_ab]

/-- C5 witness: the field value `"Bob"` supplied to PATCH is handled as the
full validator handles it. -/
theorem patch_fields_match_full_validation_witness :
    patchNameField (.str "Bob") =
      vmapName (validateUserInput ⟨.str "Bob", .str "a@b.com", .undef⟩) ∧
    patchEmailField (.str "Bob") =
      vmapEmail (validateUserInput ⟨.str "A", .str "Bob", .undef⟩) ∧
    patchAgeField (.str "Bob") =
      vmapAge (validateUserInput ⟨.str "A", .str "a@b.com", .str "Bob"⟩) :=
  patch_fields_match_full_validation (.str "Bob") (by simp)

/-! ## Claim C10 — parseInt leniency of the id validation

The claim characterizes the accepted path segments through their longest
leading run of decimal digits, independently of `parseIntJS`; the theorem
connects the two. -/

def decDigit (c : Char) : Bool := '0' ≤ c && c ≤ '9'

/-- The longest leading run of decimal digits of a path segment. -/
def leadingDigitRun (s : String) : List Char := s.data.takeWhile decDigit

/-- The numeric value of the longest leading run of decimal digits, `none`
when the segment does not start with a digit. -/
def digitRunVal (s : String) : Option Nat :=
  match leadingDigitRun s with
  | [] => none
  | run => some (run.foldl (fun a c => 10 * a + (c.toNat - 48)) 0)

theorem decDigit_bounds (c : Char) (hc : decDigit c = true) :
    48 ≤ c.toNat ∧ c.toNat ≤ 57 := by
  unfold decDigit at hc
  rw [Bool.and_eq_true] at hc
  exact ⟨of_decide_eq_true hc.1, of_decide_eq_true hc.2⟩

theorem decDigit_not_ws (c : Char) (hc : decDigit c = true) :
    isWsJS c = false := by
  obtain ⟨h1, h2⟩ := decDigit_bounds c hc
  unfold isWsJS
  simp only [Bool.or_eq_false_iff, beq_eq_false_iff_ne, ne_eq]
  refine ⟨⟨⟨⟨⟨⟨⟨?_, ?_⟩, ?_⟩, ?_⟩, ?_⟩, ?_⟩, ?_⟩, ?_⟩
  · intro h; rw [h] at h1; exact absurd h1 (by decide)
  · intro h; rw [h] at h1; exact absurd h1 (by decide)
  · intro h; rw [h] at h1; exact absurd h1 (by decide)
  · intro h; rw [h] at h1; exact absurd h1 (by decide)
  · omega
  · omega
  · omega
  · omega

theorem decDigit_ne (c a : Char) (hc : decDigit c = true)
    (ha : decDigit a = false) : (c == a) = false := by
  rcases Bool.eq_false_or_eq_true (c == a) with h | h
  · have hca : c = a := by simpa using h
    rw [hca, ha] at hc
    simp at hc
  · exact h

theorem digitsAux_dec (cs : List Char) :
    ∀ acc : Nat, digitsAux decDigitVal 10 acc cs =
      (cs.takeWhile decDigit).foldl (fun a c => 10 * a + (c.toNat - 48)) acc := by
  induction cs with
  | nil => intro acc; rfl
  | cons c t ih =>
    intro acc
    by_cases hc : decDigit c = true
    · have hc2 : ('0' ≤ c && c ≤ '9') = true := hc
      simp only [digitsAux, decDigitVal, hc2, if_true, List.takeWhile_cons, hc,
        List.foldl_cons]
      exact ih _
    · have hc2 : ('0' ≤ c && c ≤ '9') = false := by
        unfold decDigit at hc
        simpa using hc
      simp only [digitsAux, decDigitVal, hc2, Bool.false_eq_true, if_false,
        List.takeWhile_cons]
      rw [if_neg (by simp [decDigit, hc2])]
      rfl

theorem digitsVal_dec (c : Char) (t : List Char) (hc : decDigit c = true) :
    digitsVal decDigitVal 10 (c :: t) =
      some (((c :: t).takeWhile decDigit).foldl
        (fun a n => 10 * a + (n.toNat - 48)) 0) := by
  have hc2 : ('0' ≤ c && c ≤ '9') = true := hc
  simp only [digitsVal, decDigitVal, hc2, if_true]
  rw [digitsAux_dec]
  simp only [List.takeWhile_cons, hc, if_true, List.foldl_cons]
  norm_num

theorem parseRadix_dec_head (c : Char) (t : List Char)
    (hhex : c = '0' → ∀ c2 r, t = c2 :: r → (c2 == 'x' || c2 == 'X') = false) :
    parseRadix (c :: t) = digitsVal decDigitVal 10 (c :: t) := by
  unfold parseRadix
  split
  · rename_i c2 r heq
    injection heq with h1 h2
    rw [hhex h1 c2 r h2]
    simp
  · rfl

/-- Bridge: when the path segment starts with a decimal digit and its
longest leading digit run has value ≥ 1, `parseInt` returns exactly that
value (the hexadecimal branch is unreachable: it would force the run to be
just `"0"`, of value 0). -/
theorem parseIntJS_of_digitRun (s : String) (n : Nat)
    (hrun : digitRunVal s = some n) (hn : 1 ≤ n) :
    parseIntJS s = some (n : Int) := by
  unfold digitRunVal leadingDigitRun at hrun
  cases hd : s.data with
  | nil => rw [hd] at hrun; simp at hrun
  | cons c t =>
    rw [hd] at hrun
    by_cases hc : decDigit c = true
    · simp only [List.takeWhile_cons, hc, if_true] at hrun
      rw [Option.some.injEq] at hrun
      have hhex : c = '0' → ∀ c2 r, t = c2 :: r →
          (c2 == 'x' || c2 == 'X') = false := by
        intro h0 c2 r ht
        by_cases h : (c2 == 'x' || c2 == 'X') = true
        · exfalso
          have hc2d : decDigit c2 = false := by
            rw [Bool.or_eq_true] at h
            rcases h with h | h
            · have hx : c2 = 'x' := by simpa using h
              rw [hx]; rfl
            · have hx : c2 = 'X' := by simpa using h
              rw [hx]; rfl
          rw [h0, ht] at hrun
          simp only [List.takeWhile_cons, hc2d, Bool.false_eq_true, if_false,
            List.foldl_cons, List.foldl_nil] at hrun
          rw [← hrun] at hn
          exact absurd hn (by decide)
        · simpa using h
      unfold parseIntJS
      rw [hd]
      simp only [List.dropWhile_cons, decDigit_not_ws c hc, Bool.false_eq_true,
        if_false]
      simp only [decDigit_ne c '-' hc (by decide),
        decDigit_ne c '+' hc (by decide), Bool.false_eq_true, if_false]
      rw [parseRadix_dec_head c t hhex, digitsVal_dec c t hc]
      simp [List.takeWhile_cons, hc, hrun]
    · exfalso
      have hc2 : decDigit c = false := by simpa using hc
      simp only [List.takeWhile_cons, hc2, Bool.false_eq_true, if_false] at hrun
      simp at hrun

/-- C10: every path segment whose longest leading run of decimal digits
has value n ≥ 1 passes the id validation and is normalized to n, even with
trailing non-digit characters; in particular `/users/12abc` is handled as
id 12 and `/users/3.9` as id 3. -/
theorem parseInt_digit_run_accepted :
    (∀ (s : String) (n : Nat), digitRunVal s = some n → 1 ≤ n →
        validateId s = .ok (n : Int)) ∧
    validateId "12abc" = .ok 12 ∧ validateId "3.9" = .ok 3 := by
  refine ⟨?_, by rfl, by rfl⟩
  intro s n hrun hn
  have hp := parseIntJS_of_digitRun s n hrun hn
  have hge : ¬((n : Int) < 1) := by omega
  simp [validateId, hp, hge]

/-- C10 witness: the segment `"42xyz"` is accepted as id 42. -/
theorem parseInt_digit_run_accepted_witness :
    validateId "42xyz" = .ok ((42 : Nat) : Int) :=
  parseInt_digit_run_accepted.1 "42xyz" 42 (by rfl) (by decide)
